import Mathlib

/-!
Verification development for the x11-camera supervision core:
the watchdog monitor (src/run_separately.py), the orphan reaper
(src/cleanup_separately.py) and the crash-loop controller
(X11Camera.init_stream.run_stream in src/main.py).

The Python code is shallowly embedded: pure control flow becomes Lean
functions, the filesystem and the process table are oracles (functions
from poll ticks to observations), and unbounded polling loops take a
fuel argument counting sleep cycles.
-/

namespace X11

/-! ## Crash-loop controller (src/main.py, run_stream, lines 190-212)

One iteration of the `while True` loop in run_stream:
the subprocess task races a 15 second sleep task; if the sleep finishes
first (the supervised target survived the settle duration) crash_count
is reset to 0 and the run is awaited to completion; in all cases the
fall-through then executes `crash_count += 1` followed by the
`if crash_count > 5` escalation check.  `survivedSettle` records which
task won the race. The returned Bool is whether escalation fired
(diagnostic print, requestRestart, 3600 s sleep) in this iteration. -/
def runStreamIter (crashCount : Nat) (survivedSettle : Bool) : Nat × Bool :=
  let c0 := if survivedSettle then 0 else crashCount
  let c1 := c0 + 1
  (c1, decide (c1 > 5))

/-- Iterating run_stream over a list of race outcomes, collecting the
crash_count and escalation flag after each iteration. -/
def runStreamTrace : Nat → List Bool → List (Nat × Bool)
  | _, [] => []
  | c, s :: rest =>
    let r := runStreamIter c s
    r :: runStreamTrace r.1 rest

/-! ## Orphan reaper (src/cleanup_separately.py, lines 34-59)

The reaper scans PIDFILE_DIR for files `proc_name.*.pid`; for each it
tries to read the pid, look the process up, kill matching children and
the process itself (all failures swallowed), then in a `finally` block
removes the file and prints a status line.  `contents` is the oracle
for reading and int-parsing a pid file (none = open/parse raised);
`alive` is the oracle for psutil.Process lookup (none = NoSuchProcess,
some ds = its recursive children). -/

structure Proc where
  pid : Nat
  name : String
deriving DecidableEq, Repr

/-- Check on a child process name used by both the reaper and the
watchdog cleanup: name equals the target or the target plus ".exe". -/
def killMatches (target : String) (c : Proc) : Bool :=
  c.name == target || c.name == target ++ ".exe"

/-- Filename filter of the reaper: startswith "proc_name." and
endswith ".pid". -/
def reapMatches (procName file : String) : Bool :=
  file.startsWith (procName ++ ".") && file.endsWith ".pid"

/-- Outcome of the try-block for one pid file: the open/parse raised,
the process lookup raised (stale record), or the process was found and
the listed pids were killed. Every outcome is swallowed by the bare
except. -/
inductive ReapAttempt
  | unreadable
  | stale (pid : Nat)
  | killed (pid : Nat) (childKills : List Nat)
deriving DecidableEq, Repr

def reapOne (procName : String) (contents : String → Option Nat)
    (alive : Nat → Option (List Proc)) (file : String) : ReapAttempt :=
  match contents file with
  | none => .unreadable
  | some pid =>
    match alive pid with
    | none => .stale pid
    | some ds => .killed pid ((ds.filter (killMatches procName)).map Proc.pid)

structure ReapResult where
  attempts : List (String × ReapAttempt)
  removed : List String
  printed : List String
  remaining : List String
  exitStatus : Nat
deriving DecidableEq, Repr

/-- The reaper main loop over the directory listing. A matching file is
attempted (failures swallowed), then unconditionally removed and a
"{proc_name} stopped" line printed (the finally block); a non-matching
file is left in place. -/
def reapLoop (procName : String) (contents : String → Option Nat)
    (alive : Nat → Option (List Proc)) : List String → ReapResult
  | [] => { attempts := [], removed := [], printed := [], remaining := [], exitStatus := 0 }
  | f :: fs =>
    let rest := reapLoop procName contents alive fs
    if reapMatches procName f then
      { attempts := (f, reapOne procName contents alive f) :: rest.attempts
        removed := f :: rest.removed
        printed := (procName ++ " stopped") :: rest.printed
        remaining := rest.remaining
        exitStatus := rest.exitStatus }
    else
      { rest with remaining := f :: rest.remaining }

/-! ## Watchdog monitor (src/run_separately.py, lines 50-157)

Argument handling (lines 51-64): kill_proc and monitor_file are turned
into Python None when the literal string "None" was passed; Python
truthiness tests (`if kill_proc:`, `if monitor_file:`) are false for
None and for the empty string. -/

/-- Translation of the Python conversion turning the literal argv
string "None" into the Python value None. -/
def parseNone (s : String) : Option String :=
  if s = "None" then none else some s

/-- How the Python str() renders the converted value back inside an
f-string: None prints as "None". -/
def pyStr : Option String → String
  | none => "None"
  | some s => s

/-- Python truthiness of the converted value: None and "" are falsy. -/
def pyTruthy : Option String → Bool
  | none => false
  | some s => !s.isEmpty

/-- Name of the PID record file written at line 103:
f-string kill_proc, ".", proc_id, ".pid". -/
def pidFileName (killProc : Option String) (procId : String) : String :=
  pyStr killProc ++ "." ++ procId ++ ".pid"

/-- The target name (line 73): `kill_proc or cmd.split()[0]`. -/
def targetName (killProc : Option String) (cmdFirstToken : String) : String :=
  if pyTruthy killProc then pyStr killProc else cmdFirstToken

/-! Descendant resolution (lines 86-101). Every 0.1 s the watchdog
scans `me.children(recursive=True)`; a child is adopted as `sp` when
`done.done()` is already true or its name matches the target name or
the target name plus ".exe". On a scan with no adoption
sp_not_found_count is incremented and the watchdog exits 0 once the
count exceeds 100. `done t` and `children t` are oracles for the
state of the launch future and the descendant list at scan tick t. -/

/-- The body of the `for child in me.children(recursive=True)` loop at
lines 90-96: the first child passing the line-92 test is adopted. -/
def findChild (doneNow : Bool) (kids : List Proc) (name : String) : Option Proc :=
  kids.find? (fun c => doneNow || c.name == name || c.name == name ++ ".exe")

inductive LocateResult
  | located (tick : Nat) (sp : Proc)
  | timedOut (tick : Nat)
deriving DecidableEq, Repr

/-- The `while sp is None` loop. The fuel argument is the number of
0.1 s sleeps still allowed before sp_not_found_count exceeds 100:
scans happen at ticks 0..100 and the `sys.exit(0)` fires after the
failed scan at tick 100. -/
def locateAux (done : Nat → Bool) (children : Nat → List Proc) (name : String) :
    Nat → Nat → LocateResult
  | t, fuel =>
    match findChild (done t) (children t) name with
    | some c => .located t c
    | none =>
      match fuel with
      | 0 => .timedOut t
      | f + 1 => locateAux done children name (t + 1) f

def locate (done : Nat → Bool) (children : Nat → List Proc) (name : String) :
    LocateResult :=
  locateAux done children name 0 100

/-! Monitor loop (lines 106-129). Every 3 s, in order: the loop guard
`parent.is_running()`, the `done.done()` self-exit check, and in
heartbeat mode the monitor-file existence check with its consecutive
miss counter (reset to 0 and the file consumed when present, shutdown
once the count exceeds 3). -/

inductive ExitReason
  | parentDead
  | selfExit
  | heartbeatStale
deriving DecidableEq, Repr

inductive MonitorResult
  | exited (tick : Nat) (r : ExitReason)
  | stillRunning
deriving DecidableEq, Repr

/-- The checks of a single monitor poll at tick u with incoming miss
counter cnt, in source order: the loop guard `parent.is_running()`,
the `done.done()` break, then in heartbeat mode the existence check,
incrementing the counter on a miss (break once it exceeds 3) and
resetting it to 0 (and consuming the file) when present.  Returns
either the exit reason or the counter carried to the next cycle. -/
def monitorPoll (parent done hb : Nat → Bool) (hasHB : Bool) (cnt u : Nat) :
    ExitReason ⊕ Nat :=
  if parent u = false then .inl .parentDead
  else if done u = true then .inl .selfExit
  else if hasHB && !hb u then
    if cnt + 1 > 3 then .inl .heartbeatStale else .inr (cnt + 1)
  else .inr (if hasHB then 0 else cnt)

/-- The watchdog monitor loop with miss counter cnt at poll tick u;
fuel counts the 3 s sleeps still modelled (a poll happens before each
sleep, so exits need no fuel of their own). -/
def monitorAux (parent done hb : Nat → Bool) (hasHB : Bool) :
    Nat → Nat → Nat → MonitorResult
  | cnt, u, fuel =>
    match monitorPoll parent done hb hasHB cnt u with
    | .inl r => .exited u r
    | .inr cnt1 =>
      match fuel with
      | 0 => .stillRunning
      | f + 1 => monitorAux parent done hb hasHB cnt1 (u + 1) f

def monitorLoop (parent done hb : Nat → Bool) (hasHB : Bool) (fuel : Nat) :
    MonitorResult :=
  monitorAux parent done hb hasHB 0 0 fuel

/-! Cleanup (lines 131-157). Prints are wrapped; if kill_proc is truthy
the psutil lookup of sp.pid, the kills of its matching children and the
p.kill() are all inside try/except; then `sp.terminate()` and
`sp.wait()` run bare: when the sp process no longer exists,
psutil raises NoSuchProcess there, the exception escapes main and the
interpreter exits with status 1. -/

inductive Action
  | printMsg (s : String)
  | killChild (pid : Nat)
  | killProc (pid : Nat)
  | terminateProc (pid : Nat)
  | waitProc (pid : Nat)
  | removeFile (f : String)
deriving DecidableEq, Repr

/-- The kill block at lines 137-148: `lookup` is the oracle for
psutil.Process(sp.pid) (none = raised, whole block skipped by the
except) and its recursive children. -/
def cleanupKills (killProc : Option String) (spPid : Nat)
    (lookup : Option (List Proc)) : List Action :=
  if pyTruthy killProc then
    match lookup with
    | none => []
    | some ds =>
      ((ds.filter (killMatches (pyStr killProc))).map (fun c => .killChild c.pid))
        ++ [Action.killProc spPid]
  else []

/-- The full shutdown sequence from line 131 to the end of the script,
returning the actions performed and the process exit status.
`spAliveAtTerminate` is the oracle for whether the sp process still
exists when the bare `sp.terminate()` at line 150 runs. -/
def cleanupRun (name : String) (killProc : Option String) (spPid : Nat)
    (lookup : Option (List Proc)) (spAliveAtTerminate : Bool) :
    List Action × Nat :=
  let pre := [Action.printMsg (name ++ " exiting")]
  let kills := cleanupKills killProc spPid lookup
  if spAliveAtTerminate then
    (pre ++ kills ++
      [Action.terminateProc spPid, Action.waitProc spPid,
       Action.printMsg (name ++ " exited")], 0)
  else
    (pre ++ kills, 1)

/-- All oracles feeding one watchdog invocation: the five (stripped)
argv values and the environment the process observes. Resolution-phase
and monitor-phase polls use separate tick clocks. -/
structure WatchdogInput where
  cmdFirstToken : String
  killArg : String
  procId : String
  monitorArg : String
  doneR : Nat → Bool
  childrenR : Nat → List Proc
  parentM : Nat → Bool
  doneM : Nat → Bool
  hbM : Nat → Bool
  cleanupLookup : Option (List Proc)
  spAliveAtTerminate : Bool

structure WatchdogOutcome where
  record : Option (String × String)
  exitStatus : Option Nat
  reason : Option ExitReason
  cleanupActions : List Action
deriving Repr

/-- The watchdog main flow after argument parsing: locate the
descendant (exiting 0 with no record on resolution timeout), write the
PID record file (name at line 103, content `str(sp.pid)` at line 104),
run the monitor loop, then the cleanup sequence. exitStatus is none
while the monitor loop is still running (fuel exhausted). -/
def watchdog (inp : WatchdogInput) (fuel : Nat) : WatchdogOutcome :=
  let killProc := parseNone inp.killArg
  let name := targetName killProc inp.cmdFirstToken
  let monitorFile := parseNone inp.monitorArg
  let hasHB := pyTruthy monitorFile
  match locate inp.doneR inp.childrenR name with
  | .timedOut _ =>
    { record := none, exitStatus := some 0, reason := none, cleanupActions := [] }
  | .located _ sp =>
    let entry := (pidFileName killProc inp.procId, toString sp.pid)
    match monitorLoop inp.parentM inp.doneM inp.hbM hasHB fuel with
    | .stillRunning =>
      { record := some entry, exitStatus := none, reason := none, cleanupActions := [] }
    | .exited _ r =>
      let c := cleanupRun name killProc sp.pid inp.cleanupLookup inp.spAliveAtTerminate
      { record := some entry, exitStatus := some c.2, reason := some r,
        cleanupActions := c.1 }

/-! ## Concrete oracles and inputs used for counterexamples and
witnesses. -/

def allTrue : Nat → Bool := fun _ => true

def allFalse : Nat → Bool := fun _ => false

def noKids : Nat → List Proc := fun _ => []

def noPidContents : String → Option Nat := fun _ => none

def noAlive : Nat → Option (List Proc) := fun _ => none

/-- A run that locates an Xvfb child (pid 42) and whose launch future
is already done at the first monitor poll; the located process still
exists when the final terminate runs. -/
def inpSelfExit : WatchdogInput :=
  { cmdFirstToken := "xvfb-run", killArg := "Xvfb", procId := "0",
    monitorArg := "None",
    doneR := allFalse, childrenR := fun _ => [⟨42, "Xvfb"⟩],
    parentM := allTrue, doneM := allTrue, hbM := allTrue,
    cleanupLookup := some [], spAliveAtTerminate := true }

/-- Like inpSelfExit but the located process (pid 43) is already gone
when the bare sp.terminate() runs: the psutil lookup in the kill block
raises (swallowed) and the terminate raises (not swallowed). -/
def inpSpGone : WatchdogInput :=
  { cmdFirstToken := "xvfb-run", killArg := "Xvfb", procId := "1",
    monitorArg := "None",
    doneR := allFalse, childrenR := fun _ => [⟨43, "Xvfb"⟩],
    parentM := allTrue, doneM := allTrue, hbM := allTrue,
    cleanupLookup := none, spAliveAtTerminate := false }

/-- Like inpSelfExit with pid 44 and session id 2; used to witness the
exit-0 path. -/
def inpSpAlive : WatchdogInput :=
  { cmdFirstToken := "xvfb-run", killArg := "Xvfb", procId := "2",
    monitorArg := "None",
    doneR := allFalse, childrenR := fun _ => [⟨44, "Xvfb"⟩],
    parentM := allTrue, doneM := allTrue, hbM := allTrue,
    cleanupLookup := some [], spAliveAtTerminate := true }

/-- A run invoked with the "None" kill-target placeholder: the target
name falls back to the first command token, which pid 45 matches. -/
def inpNoneKill : WatchdogInput :=
  { cmdFirstToken := "xterm", killArg := "None", procId := "7",
    monitorArg := "None",
    doneR := allFalse, childrenR := fun _ => [⟨45, "xterm"⟩],
    parentM := allTrue, doneM := allTrue, hbM := allTrue,
    cleanupLookup := some [], spAliveAtTerminate := true }

/-- A run whose launch future completes at once and whose descendant
set is empty at every resolution scan. -/
def inpDoneNoKids : WatchdogInput :=
  { cmdFirstToken := "xvfb-run", killArg := "Xvfb", procId := "3",
    monitorArg := "None",
    doneR := allTrue, childrenR := noKids,
    parentM := allTrue, doneM := allTrue, hbM := allTrue,
    cleanupLookup := some [], spAliveAtTerminate := true }

/-- Like inpDoneNoKids for a different session; used to witness the
amended resolution-timeout statement. -/
def inpDoneNoKids2 : WatchdogInput :=
  { cmdFirstToken := "xterm", killArg := "None", procId := "4",
    monitorArg := "None",
    doneR := allTrue, childrenR := noKids,
    parentM := allTrue, doneM := allTrue, hbM := allTrue,
    cleanupLookup := some [], spAliveAtTerminate := true }

/-! ## Theorems -/

/-- C3: in run_stream the escalation check happens strictly after the
crash_count increment and fires exactly when the incremented count
exceeds 5; over 6 consecutive immediate exits starting from a fresh
counter, escalation fires exactly once, after the 6th exit and never
earlier. -/
theorem run_stream_escalates_after_sixth_crash :
    ((runStreamTrace 0 [false, false, false, false, false, false]).map Prod.snd
        = [false, false, false, false, false, true])
    ∧ ∀ (c : Nat) (s : Bool),
        ((runStreamIter c s).2 = true ↔ 5 < (runStreamIter c s).1) := by
  refine ⟨by decide, ?_⟩
  intro c s
  simp [runStreamIter]

/-- C4: when the target survives the 15 s settle race, crash_count is
reset to 0 before the run is awaited, so the subsequent early exit
leaves crash_count at exactly 1 whatever the prior failure history,
and that iteration does not escalate. -/
theorem run_stream_settle_resets_crash_count (c : Nat) :
    runStreamIter c true = runStreamIter 0 true
    ∧ (runStreamIter c true).1 = 1
    ∧ (runStreamIter c true).2 = false := by
  refine ⟨?_, ?_, ?_⟩ <;> simp [runStreamIter]

/-- C10: on an early exit crash_count only ever grows (by exactly 1);
once it is above 5 the next early exit takes it above 5 again and
escalation fires again, since escalating does not reset the counter. -/
theorem run_stream_reescalates_after_escalation (c : Nat) (h : 5 < c) :
    (runStreamIter c false).1 = c + 1
    ∧ 5 < (runStreamIter c false).1
    ∧ (runStreamIter c false).2 = true := by
  refine ⟨by simp [runStreamIter], by simp [runStreamIter]; omega, ?_⟩
  simp [runStreamIter]
  omega

/-- Witness for C10 at crash_count 6. -/
theorem run_stream_reescalates_after_escalation_witness :
    (runStreamIter 6 false).1 = 6 + 1
    ∧ 5 < (runStreamIter 6 false).1
    ∧ (runStreamIter 6 false).2 = true :=
  run_stream_reescalates_after_escalation 6 (by decide)

/-- C6: over any directory listing, any pid-file contents and any
process-table state (so any subset of records stale), one reaper pass
attempts a kill for every record whose name matches the target,
removes every matching record unconditionally, prints one status line
per matching record, leaves non-matching files alone and exits 0. -/
theorem reaper_processes_every_matching_record (procName : String)
    (files : List String) (contents : String → Option Nat)
    (alive : Nat → Option (List Proc)) :
    ((reapLoop procName contents alive files).removed
        = files.filter (fun f => reapMatches procName f))
    ∧ (((reapLoop procName contents alive files).attempts).map Prod.fst
        = files.filter (fun f => reapMatches procName f))
    ∧ ((reapLoop procName contents alive files).printed
        = (files.filter (fun f => reapMatches procName f)).map
            (fun _ => procName ++ " stopped"))
    ∧ ((reapLoop procName contents alive files).remaining
        = files.filter (fun f => !reapMatches procName f))
    ∧ (reapLoop procName contents alive files).exitStatus = 0 := by
  induction files with
  | nil => simp [reapLoop]
  | cons f fs ih =>
    obtain ⟨ih1, ih2, ih3, ih4, ih5⟩ := ih
    by_cases h : reapMatches procName f = true <;>
      simp [reapLoop, h, ih1, ih2, ih3, ih4, ih5, List.filter_cons]

/-- C7: the reaper over an empty record directory is a no-op (nothing
attempted, nothing removed, nothing printed, exit 0, directory left
empty), and running it again over the resulting directory is the same
no-op. -/
theorem reaper_empty_noop_twice (procName : String)
    (contents : String → Option Nat) (alive : Nat → Option (List Proc)) :
    (reapLoop procName contents alive []
      = { attempts := [], removed := [], printed := [], remaining := [],
          exitStatus := 0 })
    ∧ (reapLoop procName contents alive
          (reapLoop procName contents alive []).remaining
        = { attempts := [], removed := [], printed := [], remaining := [],
            exitStatus := 0 }) :=
  ⟨rfl, rfl⟩

/-- Round trip of the "None" placeholder through the Python None and
back through str() inside the f-string: the filename component always
equals the raw argv value. -/
theorem pyStr_parseNone (s : String) : pyStr (parseNone s) = s := by
  by_cases h : s = "None" <;> simp [parseNone, pyStr, h]

/-- C9: whenever the resolution loop locates a descendant sp, the
watchdog writes exactly one PID record, named
killArg ++ "." ++ procId ++ ".pid" (for every killArg value, the
"None" placeholder included), whose content is the decimal pid of sp
and nothing else. -/
theorem watchdog_record_name_and_content (inp : WatchdogInput)
    (fuel t : Nat) (sp : Proc)
    (h : locate inp.doneR inp.childrenR
          (targetName (parseNone inp.killArg) inp.cmdFirstToken)
        = .located t sp) :
    (watchdog inp fuel).record
      = some (inp.killArg ++ "." ++ inp.procId ++ ".pid", toString sp.pid) := by
  simp only [watchdog]
  rw [h]
  cases monitorLoop inp.parentM inp.doneM inp.hbM
      (pyTruthy (parseNone inp.monitorArg)) fuel <;>
    simp [pidFileName, pyStr_parseNone]

/-- Witness for C9 on a run invoked with the "None" placeholder that
locates pid 45 at the first scan. -/
theorem watchdog_record_name_and_content_witness :
    (watchdog inpNoneKill 0).record = some ("None.7.pid", "45") :=
  watchdog_record_name_and_content inpNoneKill 0 0 ⟨45, "xterm"⟩ (by decide)

/-- Resolution scans over a permanently empty descendant set fail one
by one until the counter runs out: the loop exits at scan tick
t plus fuel. -/
theorem locateAux_no_kids (done : Nat → Bool) (children : Nat → List Proc)
    (name : String) (hc : ∀ t, children t = []) :
    ∀ (fuel t : Nat), locateAux done children name t fuel = .timedOut (t + fuel) := by
  intro fuel
  induction fuel with
  | zero => intro t; rw [locateAux]; simp [findChild, hc]
  | succ f ih =>
    intro t
    rw [locateAux]
    simp only [findChild, hc, List.find?_nil]
    rw [ih (t + 1)]
    congr 1
    omega

/-- C2 counterexample: with the launch future completed before the
first scan and no descendant process ever present, the watchdog does
not exit at the first scan tick; it runs the full resolution window
and only exits (status 0, no record) after the failed scan at tick
100, about 10 seconds later. -/
theorem watchdog_done_no_kids_not_immediate :
    (locate inpDoneNoKids.doneR inpDoneNoKids.childrenR
        (targetName (parseNone inpDoneNoKids.killArg)
          inpDoneNoKids.cmdFirstToken) = .timedOut 100)
    ∧ LocateResult.timedOut 100 ≠ LocateResult.timedOut 0
    ∧ (watchdog inpDoneNoKids 0).record = none
    ∧ (watchdog inpDoneNoKids 0).exitStatus = some 0 := by
  refine ⟨?_, by decide, ?_, ?_⟩ <;> rfl

/-- C2 amended: if the launch future is already done at every scan and
no descendant process is ever observed, the watchdog exits with status
0 and writes no PID record, but only after the resolution window of
101 scans expires (timeout at tick 100), not immediately. -/
theorem watchdog_done_no_kids_timeout (inp : WatchdogInput) (fuel : Nat)
    (_hd : ∀ t, inp.doneR t = true) (hc : ∀ t, inp.childrenR t = []) :
    (locate inp.doneR inp.childrenR
        (targetName (parseNone inp.killArg) inp.cmdFirstToken)
      = .timedOut 100)
    ∧ (watchdog inp fuel).record = none
    ∧ (watchdog inp fuel).exitStatus = some 0 := by
  have hl : locate inp.doneR inp.childrenR
      (targetName (parseNone inp.killArg) inp.cmdFirstToken) = .timedOut 100 := by
    unfold locate
    rw [locateAux_no_kids inp.doneR inp.childrenR _ hc]
  refine ⟨hl, ?_, ?_⟩ <;> (simp only [watchdog]; rw [hl])

/-- Witness for the amended C2 on a concrete input. -/
theorem watchdog_done_no_kids_timeout_witness :
    (locate inpDoneNoKids2.doneR inpDoneNoKids2.childrenR
        (targetName (parseNone inpDoneNoKids2.killArg)
          inpDoneNoKids2.cmdFirstToken)
      = .timedOut 100)
    ∧ (watchdog inpDoneNoKids2 0).record = none
    ∧ (watchdog inpDoneNoKids2 0).exitStatus = some 0 :=
  watchdog_done_no_kids_timeout inpDoneNoKids2 0 (fun _ => rfl) (fun _ => rfl)

/-- The kill block of the watchdog shutdown sequence only ever prints,
kills, terminates or waits; it removes no file. -/
theorem removeFile_notMem_cleanupKills (f : String) (kp : Option String)
    (spPid : Nat) (lookup : Option (List Proc)) :
    Action.removeFile f ∉ cleanupKills kp spPid lookup := by
  unfold cleanupKills
  split
  · cases lookup with
    | none => simp
    | some ds => simp
  · simp

/-- The whole watchdog shutdown sequence removes no file. -/
theorem removeFile_notMem_cleanupRun (f name : String) (kp : Option String)
    (spPid : Nat) (lookup : Option (List Proc)) (alive : Bool) :
    Action.removeFile f ∉ (cleanupRun name kp spPid lookup alive).1 := by
  unfold cleanupRun
  split <;> simp <;> exact removeFile_notMem_cleanupKills f kp spPid lookup

/-- C1 counterexample: a run that located its descendant (pid 42,
record Xvfb.0.pid written) and exits because the supervised process
exited by itself performs a cleanup that never removes the PID record
file: the record still exists when the watchdog is gone. -/
theorem watchdog_keeps_pid_record_on_self_exit :
    (watchdog inpSelfExit 0).record = some ("Xvfb.0.pid", "42")
    ∧ (watchdog inpSelfExit 0).reason = some ExitReason.selfExit
    ∧ (watchdog inpSelfExit 0).exitStatus.isSome = true
    ∧ Action.removeFile "Xvfb.0.pid" ∉ (watchdog inpSelfExit 0).cleanupActions := by
  refine ⟨rfl, rfl, rfl, ?_⟩
  decide

/-- C1 amended: the watchdog never removes its PidRecord (or any other
file) during its exit cleanup, on any exit path; the record written at
location time persists after the watchdog exits, and is only cleared
by the separate reaper or overwritten by a later invocation with the
same key. -/
theorem watchdog_cleanup_never_removes_files (inp : WatchdogInput)
    (fuel : Nat) (f : String) :
    Action.removeFile f ∉ (watchdog inp fuel).cleanupActions := by
  simp only [watchdog]
  cases locate inp.doneR inp.childrenR
      (targetName (parseNone inp.killArg) inp.cmdFirstToken) with
  | timedOut t => simp
  | located t sp =>
    cases monitorLoop inp.parentM inp.doneM inp.hbM
        (pyTruthy (parseNone inp.monitorArg)) fuel with
    | stillRunning => simp
    | exited u r =>
      simp only []
      exact removeFile_notMem_cleanupRun f _ _ _ _ _

/-- C8 counterexample: on a run that located its descendant and whose
located process is already gone when the bare sp.terminate() at line
150 runs, the NoSuchProcess exception escapes and the watchdog exits
with status 1, not 0. -/
theorem watchdog_nonzero_exit_when_sp_gone :
    (watchdog inpSpGone 0).exitStatus = some 1
    ∧ (watchdog inpSpGone 0).exitStatus ≠ some 0 := by
  refine ⟨rfl, by decide⟩

/-- C8 amended: the watchdog exits 0 on the resolution-timeout path,
and on every monitored exit path provided the located process still
exists when the final sp.terminate() runs; otherwise the unhandled
psutil error makes it exit nonzero. -/
theorem watchdog_exit_zero_when_sp_alive (inp : WatchdogInput) (fuel : Nat)
    (h : inp.spAliveAtTerminate = true) :
    (watchdog inp fuel).exitStatus = some 0
    ∨ (watchdog inp fuel).exitStatus = none := by
  simp only [watchdog]
  cases locate inp.doneR inp.childrenR
      (targetName (parseNone inp.killArg) inp.cmdFirstToken) with
  | timedOut t => left; rfl
  | located t sp =>
    cases monitorLoop inp.parentM inp.doneM inp.hbM
        (pyTruthy (parseNone inp.monitorArg)) fuel with
    | stillRunning => right; rfl
    | exited u r =>
      left
      simp [cleanupRun, h]

/-- Witness for the amended C8 on a run whose located process is still
alive at the final terminate. -/
theorem watchdog_exit_zero_when_sp_alive_witness :
    (watchdog inpSpAlive 0).exitStatus = some 0
    ∨ (watchdog inpSpAlive 0).exitStatus = none :=
  watchdog_exit_zero_when_sp_alive inpSpAlive 0 rfl

/-- A monitor poll in heartbeat mode reports heartbeat staleness only
when the file is missing at this poll and the incoming miss counter is
already 3. -/
theorem monitorPoll_stale {parent done hb : Nat → Bool} {cnt u : Nat}
    (h : monitorPoll parent done hb true cnt u = .inl .heartbeatStale) :
    hb u = false ∧ 3 ≤ cnt := by
  unfold monitorPoll at h
  split at h
  · simp at h
  · split at h
    · simp at h
    · split at h
      · split at h
        · rename_i hcond hth
          exact ⟨by simpa using hcond, by omega⟩
        · simp at h
      · simp at h

/-- A monitor poll in heartbeat mode that continues either saw the
file (carrying counter 0 onward) or missed it with fewer than 3 prior
consecutive misses (carrying the incremented counter). -/
theorem monitorPoll_next {parent done hb : Nat → Bool} {cnt u cnt1 : Nat}
    (h : monitorPoll parent done hb true cnt u = .inr cnt1) :
    (hb u = true ∧ cnt1 = 0)
    ∨ (hb u = false ∧ cnt1 = cnt + 1 ∧ cnt + 1 ≤ 3) := by
  unfold monitorPoll at h
  split at h
  · simp at h
  · split at h
    · simp at h
    · split at h
      · split at h
        · simp at h
        · rename_i hcond hth
          right
          refine ⟨by simpa using hcond, ?_, by omega⟩
          injection h with h
          omega
      · rename_i hcond
        left
        have hbu : hb u = true := by
          revert hcond
          cases hb u <;> simp
        refine ⟨hbu, ?_⟩
        injection h with h
        simp at h
        omega

/-- When a poll fires the staleness exit, the heartbeat file was
missing at this poll and at the previous three, given the window
invariant on the incoming counter. -/
theorem monitorPoll_stale_window (parent done hb : Nat → Bool) {cnt u : Nat}
    (hc : cnt ≤ 3) (hcu : cnt ≤ u)
    (h1 : 1 ≤ cnt → hb (u - 1) = false)
    (h2 : 2 ≤ cnt → hb (u - 2) = false)
    (h3 : 3 ≤ cnt → hb (u - 3) = false)
    (hpoll : monitorPoll parent done hb true cnt u = .inl .heartbeatStale) :
    3 ≤ u ∧ hb u = false ∧ hb (u - 1) = false ∧ hb (u - 2) = false
      ∧ hb (u - 3) = false := by
  obtain ⟨hhb, hcnt⟩ := monitorPoll_stale hpoll
  exact ⟨by omega, hhb, h1 (by omega), h2 (by omega), h3 (by omega)⟩

/-- Main staleness-window induction: whenever the monitor loop in
heartbeat mode exits for heartbeat staleness at tick v, the heartbeat
file was absent at v and at the three preceding polls (4 consecutive
misses), provided the incoming counter satisfies the window
invariant. -/
theorem monitorAux_stale_window (parent done hb : Nat → Bool) :
    ∀ (fuel cnt u v : Nat), cnt ≤ 3 → cnt ≤ u →
      (1 ≤ cnt → hb (u - 1) = false) →
      (2 ≤ cnt → hb (u - 2) = false) →
      (3 ≤ cnt → hb (u - 3) = false) →
      monitorAux parent done hb true cnt u fuel = .exited v .heartbeatStale →
      3 ≤ v ∧ hb v = false ∧ hb (v - 1) = false ∧ hb (v - 2) = false
        ∧ hb (v - 3) = false := by
  intro fuel
  induction fuel with
  | zero =>
    intro cnt u v hc hcu h1 h2 h3 hrun
    rw [monitorAux] at hrun
    cases hpoll : monitorPoll parent done hb true cnt u with
    | inl r =>
      rw [hpoll] at hrun
      injection hrun with huv hr
      subst huv
      subst hr
      exact monitorPoll_stale_window parent done hb hc hcu h1 h2 h3 hpoll
    | inr cnt1 =>
      rw [hpoll] at hrun
      simp at hrun
  | succ f ih =>
    intro cnt u v hc hcu h1 h2 h3 hrun
    rw [monitorAux] at hrun
    cases hpoll : monitorPoll parent done hb true cnt u with
    | inl r =>
      rw [hpoll] at hrun
      injection hrun with huv hr
      subst huv
      subst hr
      exact monitorPoll_stale_window parent done hb hc hcu h1 h2 h3 hpoll
    | inr cnt1 =>
      rw [hpoll] at hrun
      rcases monitorPoll_next hpoll with ⟨hbu, rfl⟩ | ⟨hbu, rfl, hle⟩
      · refine ih 0 (u + 1) v (by omega) (by omega) ?_ ?_ ?_ hrun
        · intro hh; exact absurd hh (by omega)
        · intro hh; exact absurd hh (by omega)
        · intro hh; exact absurd hh (by omega)
      · refine ih (cnt + 1) (u + 1) v (by omega) (by omega) ?_ ?_ ?_ hrun
        · intro _
          have e : u + 1 - 1 = u := by omega
          rw [e]
          exact hbu
        · intro hh
          have e : u + 1 - 2 = u - 1 := by omega
          rw [e]
          exact h1 (by omega)
        · intro hh
          have e : u + 1 - 3 = u - 2 := by omega
          rw [e]
          exact h2 (by omega)

/-- With the parent alive, the launch future unfinished and the
heartbeat file absent at polls 0 through 3, the monitor loop shuts
down for heartbeat staleness at poll 3 (the 4th consecutive miss),
whatever fuel remains. -/
theorem monitor_stale_fires (parent done hb : Nat → Bool) (k : Nat)
    (hp : ∀ u, u ≤ 3 → parent u = true)
    (hd : ∀ u, u ≤ 3 → done u = false)
    (hh : ∀ u, u ≤ 3 → hb u = false) :
    monitorLoop parent done hb true (k + 3) = .exited 3 .heartbeatStale := by
  have p0 : monitorPoll parent done hb true 0 0 = .inr 1 := by
    simp [monitorPoll, hp 0 (by omega), hd 0 (by omega), hh 0 (by omega)]
  have p1 : monitorPoll parent done hb true 1 1 = .inr 2 := by
    simp [monitorPoll, hp 1 (by omega), hd 1 (by omega), hh 1 (by omega)]
  have p2 : monitorPoll parent done hb true 2 2 = .inr 3 := by
    simp [monitorPoll, hp 2 (by omega), hd 2 (by omega), hh 2 (by omega)]
  have p3 : monitorPoll parent done hb true 3 3 = .inl .heartbeatStale := by
    simp [monitorPoll, hp 3 (by omega), hd 3 (by omega), hh 3 (by omega)]
  unfold monitorLoop
  rw [monitorAux, p0]
  show monitorAux parent done hb true 1 1 (k + 2) = _
  rw [monitorAux, p1]
  show monitorAux parent done hb true 2 2 (k + 1) = _
  rw [monitorAux, p2]
  show monitorAux parent done hb true 3 3 k = _
  rw [monitorAux, p3]

/-- Any poll at which the heartbeat file exists (with the parent alive
and the launch future unfinished) resets the consecutive-miss counter
to 0 for the next cycle, whatever it was. -/
theorem monitor_reset_on_presence (parent done hb : Nat → Bool)
    (cnt u f : Nat) (hp : parent u = true) (hd : done u = false)
    (hh : hb u = true) :
    monitorAux parent done hb true cnt u (f + 1)
      = monitorAux parent done hb true 0 (u + 1) f := by
  have hpoll : monitorPoll parent done hb true cnt u = .inr 0 := by
    simp [monitorPoll, hp, hd, hh]
  rw [monitorAux, hpoll]

/-- C5: in heartbeat mode (i) a heartbeat-staleness shutdown at poll v
implies the file was absent at v and the three preceding polls, so
staleness of a single cycle (or any run of at most 3 cycles) never
causes shutdown; (ii) with the parent and the supervised process both
alive throughout, 4 consecutive absent polls trigger the shutdown at
the 4th; (iii) any poll at which the file exists resets the staleness
counter to 0. -/
theorem heartbeat_staleness_shutdown :
    (∀ (parent done hb : Nat → Bool) (fuel v : Nat),
        monitorLoop parent done hb true fuel = .exited v .heartbeatStale →
        3 ≤ v ∧ hb v = false ∧ hb (v - 1) = false ∧ hb (v - 2) = false
          ∧ hb (v - 3) = false)
    ∧ (∀ (parent done hb : Nat → Bool) (k : Nat),
        (∀ u, u ≤ 3 → parent u = true) → (∀ u, u ≤ 3 → done u = false) →
        (∀ u, u ≤ 3 → hb u = false) →
        monitorLoop parent done hb true (k + 3) = .exited 3 .heartbeatStale)
    ∧ (∀ (parent done hb : Nat → Bool) (cnt u f : Nat),
        parent u = true → done u = false → hb u = true →
        monitorAux parent done hb true cnt u (f + 1)
          = monitorAux parent done hb true 0 (u + 1) f) := by
  refine ⟨?_, monitor_stale_fires, monitor_reset_on_presence⟩
  intro parent done hb fuel v hrun
  exact monitorAux_stale_window parent done hb fuel 0 0 v (by omega) (by omega)
    (fun hh => absurd hh (by omega)) (fun hh => absurd hh (by omega))
    (fun hh => absurd hh (by omega)) hrun

/-- Witness for C5: parent always alive, launch future never done,
heartbeat file never present; the monitor loop shuts down for
staleness at poll 3. -/
theorem heartbeat_staleness_shutdown_witness :
    monitorLoop allTrue allFalse allFalse true 3
      = .exited 3 .heartbeatStale :=
  heartbeat_staleness_shutdown.2.1 allTrue allFalse allFalse 0
    (fun _ _ => rfl) (fun _ _ => rfl) (fun _ _ => rfl)

end X11
